import Mathlib

/-!
Shallow embedding of the Folder Gateway worker (`src/src/lib.rs`): a
Cloudflare-worker HTTP handler that lists a Google Drive folder and serves a
named file's bytes, resolving shortcut entries to their target.

Strings are modelled as their UTF-8 byte sequences (`Bytes := List Nat`),
matching Rust's `String`/`&str` representation.  The remote provider is an
oracle (`Provider`): the listing/search endpoint is keyed by the full query
URL the code builds, the metadata and download endpoints by the file id the
code interpolates into their URLs.  Each handler returns the
`worker::Result<Response>` value together with the trace of provider calls it
issued, in order.
-/

set_option linter.unusedVariables false
set_option maxRecDepth 100000

namespace Drive

abbrev Bytes := List Nat

/-- UTF-8 encoding of one scalar value, as byte values. -/
def utf8Bytes (c : Char) : Bytes :=
  let n := c.toNat
  if n < 128 then [n]
  else if n < 2048 then [192 + n / 64, 128 + n % 64]
  else if n < 65536 then [224 + n / 4096, 128 + n / 64 % 64, 128 + n % 64]
  else [240 + n / 262144, 128 + n / 4096 % 64, 128 + n / 64 % 64, 128 + n % 64]

/-- The UTF-8 bytes of a string literal (model of Rust `str::as_bytes`). -/
def strBytes (s : String) : Bytes :=
  s.data.flatMap utf8Bytes

/-! ## The `urlencoding` crate

`urlencoding::encode` percent-encodes every byte except ASCII alphanumerics
and `-`, `.`, `_`, `~`, using uppercase hex digits.  `urlencoding::decode`
first rewrites every `%XX` hex pair to its byte (leaving malformed sequences
untouched: `decode_binary`), then fails iff the resulting byte sequence is
not valid UTF-8. -/

def to_hex_digit (d : Nat) : Nat :=
  if d < 10 then 48 + d else 55 + d

def from_hex_digit (b : Nat) : Option Nat :=
  if 48 ≤ b ∧ b ≤ 57 then some (b - 48)
  else if 65 ≤ b ∧ b ≤ 70 then some (b - 55)
  else if 97 ≤ b ∧ b ≤ 102 then some (b - 87)
  else none

/-- Bytes kept verbatim by `urlencoding::encode`. -/
def isUrlSafe (b : Nat) : Bool :=
  (48 ≤ b && b ≤ 57) || (65 ≤ b && b ≤ 90) || (97 ≤ b && b ≤ 122) ||
  b == 45 || b == 46 || b == 95 || b == 126

def encodeByte (b : Nat) : Bytes :=
  if isUrlSafe b then [b] else [37, to_hex_digit (b / 16), to_hex_digit (b % 16)]

/-- Model of `urlencoding::encode` on the string's UTF-8 bytes. -/
def urlencode (bs : Bytes) : Bytes :=
  bs.flatMap encodeByte

/-- Model of `urlencoding::decode_binary`: rewrite `%XX` pairs, keep a `%`
not followed by two hex digits as a literal byte. -/
def decode_binary : Bytes → Bytes
  | [] => []
  | b :: rest =>
    if b = 37 then
      match rest with
      | h :: l :: rest2 =>
        match from_hex_digit h, from_hex_digit l with
        | some hv, some lv => (16 * hv + lv) :: decode_binary rest2
        | _, _ => 37 :: decode_binary (h :: l :: rest2)
      | [h] => 37 :: decode_binary [h]
      | [] => [37]
    else b :: decode_binary rest

/-- Validity of a byte sequence as UTF-8 (the check behind Rust's
`String::from_utf8`, which `urlencoding::decode` applies to the decoded
bytes).  `validA ps bs` first requires the bytes of `bs` to satisfy the
pending continuation ranges `ps`, then case-splits on the lead byte with the
standard ranges that exclude overlong forms, surrogates and values above
U+10FFFF. -/
def validA : List (Nat × Nat) → Bytes → Bool
  | [], [] => true
  | _ :: _, [] => false
  | (lo, hi) :: ps, c :: rest => if lo ≤ c ∧ c ≤ hi then validA ps rest else false
  | [], b :: rest =>
    if b < 128 then validA [] rest
    else if 194 ≤ b ∧ b ≤ 223 then validA [(128, 191)] rest
    else if b = 224 then validA [(160, 191), (128, 191)] rest
    else if (225 ≤ b ∧ b ≤ 236) ∨ b = 238 ∨ b = 239 then
      validA [(128, 191), (128, 191)] rest
    else if b = 237 then validA [(128, 159), (128, 191)] rest
    else if b = 240 then validA [(144, 191), (128, 191), (128, 191)] rest
    else if 241 ≤ b ∧ b ≤ 243 then validA [(128, 191), (128, 191), (128, 191)] rest
    else if b = 244 then validA [(128, 143), (128, 191), (128, 191)] rest
    else false

/-- A byte sequence is valid UTF-8 when it validates with no pending
continuation bytes. -/
def validUtf8 (bs : Bytes) : Bool := validA [] bs

/-- Model of `urlencoding::decode`: percent-decode, then require the result
to be valid UTF-8. -/
def urldecode (bs : Bytes) : Option Bytes :=
  let decoded := decode_binary bs
  if validUtf8 decoded then some decoded else none

/-- Rust `str::is_char_boundary` on the byte representation: position `i` is
a boundary iff it is `0`, the length, or the byte there is not a UTF-8
continuation byte. -/
def is_char_boundary (bs : Bytes) (i : Nat) : Bool :=
  if i = 0 then true
  else
    match bs.drop i with
    | [] => decide (i = bs.length)
    | c :: _ => decide (c < 128 ∨ 192 ≤ c)

/-! ## Data model (`DriveShorcutDetails`, `DriveFile`, `DriveResponse`) -/

structure DriveShorcutDetails where
  target_id : Bytes
  deriving DecidableEq

structure DriveFile where
  id : Bytes
  name : Bytes
  mime_type : Bytes
  web_view_link : Option Bytes
  web_content_link : Option Bytes
  shortcut_details : Option DriveShorcutDetails
  deriving DecidableEq

structure DriveResponse where
  files : List DriveFile
  deriving DecidableEq

/-! ## Worker responses and the provider oracle -/

inductive Body where
  | text (msg : Bytes)
  | html (doc : Bytes)
  | bytes (b : Bytes)
  deriving DecidableEq

structure Response where
  status : Nat
  body : Body
  headers : List (Bytes × Bytes)
  deriving DecidableEq

/-- `Response::error(msg, code)`. -/
def Response.error (msg : Bytes) (code : Nat) : Response :=
  ⟨code, Body.text msg, []⟩

/-- `Response::from_html(html)`. -/
def Response.from_html (doc : Bytes) : Response :=
  ⟨200, Body.html doc, []⟩

/-- A provider call issued by the handler, recorded in order.  The files
query endpoint is identified by the full URL the code builds; the
get-metadata and download endpoints by the file id interpolated into their
URLs. -/
inductive Call where
  | search (url : Bytes)
  | getMetadata (fileId : Bytes)
  | download (fileId : Bytes)
  deriving DecidableEq

/-- The remote storage provider, as an oracle giving the status and (when
2xx) the deserialized payload of each endpoint. -/
structure Provider where
  searchStatus : Bytes → Nat
  searchResult : Bytes → DriveResponse
  metaStatus : Bytes → Nat
  metaResult : Bytes → DriveFile
  downloadStatus : Bytes → Nat
  downloadBytes : Bytes → Bytes

/-- `(200..300).contains(&status)`. -/
def is2xx (s : Nat) : Bool :=
  200 ≤ s && s < 300

/-! ## URLs and error messages from the source -/

def listUrl (folder_id api_key : Bytes) : Bytes :=
  strBytes "https://www.googleapis.com/drive/v3/files?q=\x27" ++ folder_id ++
  strBytes "\x27+in+parents&supportsAllDrives=true&includeItemsFromAllDrives=true&key=" ++
  api_key

/-- `file_name.replace("'", "\\'")`: on UTF-8 bytes, each `39` (the quote)
becomes `92, 39` and every other byte is kept. -/
def escapeQuote (name : Bytes) : Bytes :=
  name.flatMap fun b => if b = 39 then [92, 39] else [b]

def searchUrl (file_name folder_id api_key : Bytes) : Bytes :=
  strBytes "https://www.googleapis.com/drive/v3/files?q=name=\x27" ++
  escapeQuote file_name ++
  strBytes "\x27+and+\x27" ++ folder_id ++
  strBytes "\x27+in+parents&supportsAllDrives=true&includeItemsFromAllDrives=true&fields=files(id,name,mimeType,shortcutDetails)&key=" ++
  api_key

def listFailedMsg : Bytes := strBytes "Failed to fetch files from Google Drive"
def searchFailedMsg : Bytes := strBytes "Failed to search for file"
def notFoundMsg : Bytes := strBytes "File not found"
def shortcutFailedMsg : Bytes := strBytes "Failed to fetch target file of shortcut"
def downloadFailedMsg : Bytes := strBytes "Failed to download file"
def invalidEncodingMsg : Bytes := strBytes "Invalid file name encoding"
def routeNotFoundMsg : Bytes := strBytes "Not found"

/-! ## The handlers -/

/-- `serve_file_by_id`: download the content for `file_info.id`; on a non-2xx
status answer 500 "Failed to download file"; on success answer the bytes with
`Content-Type` and `Content-Disposition: inline; filename="<name>"` headers. -/
def serve_file_by_id (P : Provider) (api_key : Bytes) (file_info : DriveFile) :
    Except Bytes Response × List Call :=
  let file_id := file_info.id
  let download_status := P.downloadStatus file_id
  if is2xx download_status then
    let body := P.downloadBytes file_id
    (Except.ok
      ⟨200, Body.bytes body,
        [(strBytes "Content-Type", file_info.mime_type),
         (strBytes "Content-Disposition",
          strBytes "inline; filename=\x22" ++ file_info.name ++ strBytes "\x22")]⟩,
     [Call.download file_id])
  else
    (Except.ok (Response.error downloadFailedMsg 500), [Call.download file_id])

/-- `serve_file_by_name`: search by name and parent folder; 500 on search
failure, 404 on no match; take the first match; resolve a shortcut by one
metadata fetch of its `targetId` (500 on failure) and serve the target,
otherwise serve the match directly. -/
def serve_file_by_name (P : Provider) (api_key folder_id file_name : Bytes) :
    Except Bytes Response × List Call :=
  let search_url := searchUrl file_name folder_id api_key
  let search_status := P.searchStatus search_url
  if is2xx search_status then
    let search_result := P.searchResult search_url
    match search_result.files with
    | [] => (Except.ok (Response.error notFoundMsg 404), [Call.search search_url])
    | file_info :: _ =>
      match file_info.shortcut_details with
      | some shortcut_details =>
        let target_file_id := shortcut_details.target_id
        let target_status := P.metaStatus target_file_id
        if is2xx target_status then
          let target_file_info := P.metaResult target_file_id
          let r := serve_file_by_id P api_key target_file_info
          (r.1, Call.search search_url :: Call.getMetadata target_file_id :: r.2)
        else
          (Except.ok (Response.error shortcutFailedMsg 500),
           [Call.search search_url, Call.getMetadata target_file_id])
      | none =>
        let r := serve_file_by_id P api_key file_info
        (r.1, Call.search search_url :: r.2)
  else
    (Except.ok (Response.error searchFailedMsg 500), [Call.search search_url])

/-! ## Listing -/

def htmlHeader : Bytes :=
  strBytes "\n<!DOCTYPE html>\n<html>\n<head>\n    <title>Drive Files</title>\n    <style>\n        body \x7b font-family: Arial, sans-serif; margin: 40px; \x7d\n        .file \x7b margin: 10px 0; padding: 10px; border: 1px solid #ddd; border-radius: 5px; \x7d\n        .file-name \x7b font-weight: bold; \x7d\n        .file-type \x7b color: #666; font-size: 0.9em; \x7d\n        a \x7b text-decoration: none; color: #1976d2; \x7d\n        a:hover \x7b text-decoration: underline; \x7d\n    </style>\n</head>\n<body>\n    <h1>Files in Drive Folder</h1>\n"

def fileBlock (file : DriveFile) : Bytes :=
  strBytes "\n    <div class=\x22file\x22>\n        <div class=\x22file-name\x22>\n            <a href=\x22/files/" ++
  urlencode file.name ++ strBytes "\x22>" ++ file.name ++
  strBytes "</a>\n        </div>\n        <div class=\x22file-type\x22>" ++ file.mime_type ++
  strBytes "</div>\n    </div>\n"

def listingHtml (files : List DriveFile) : Bytes :=
  htmlHeader ++ files.flatMap fileBlock ++ strBytes "</body></html>"

/-- `list_files`: query all entries with the folder as parent; 500 on a
non-2xx status, otherwise render the HTML listing with a percent-encoded link
per file. -/
def list_files (P : Provider) (api_key folder_id : Bytes) :
    Except Bytes Response × List Call :=
  let url := listUrl folder_id api_key
  let status_code := P.searchStatus url
  if is2xx status_code then
    let drive_response := P.searchResult url
    (Except.ok (Response.from_html (listingHtml drive_response.files)), [Call.search url])
  else
    (Except.ok (Response.error listFailedMsg 500), [Call.search url])

/-- The `fetch` event handler: route on the path bytes.  Exactly `/files/`
lists; a longer `/files/`-prefixed path serves by the percent-decoded
remainder, where a decode failure propagates `Err("Invalid file name
encoding")` through `?`; anything else is a 404. -/
def fetch (P : Provider) (api_key folder_id path : Bytes) :
    Except Bytes Response × List Call :=
  if path = strBytes "/files/" then
    list_files P api_key folder_id
  else if (strBytes "/files/").isPrefixOf path then
    let file_name := path.drop 7
    match urldecode file_name with
    | some decoded_name => serve_file_by_name P api_key folder_id decoded_name
    | none => (Except.error invalidEncodingMsg, [])
  else
    (Except.ok (Response.error routeNotFoundMsg 404), [])

end Drive

namespace Drive

/-! ## Concrete fixtures used by the witness theorems -/

def wKey : Bytes := strBytes "testkey"
def wFolder : Bytes := strBytes "folder123"

/-- A plain content file, as in the spec example (`photo.png`, `image/png`). -/
def photoFile : DriveFile :=
  ⟨strBytes "photo-id-7", strBytes "photo.png", strBytes "image/png", none, none, none⟩

/-- A shortcut entry pointing at `target-id-9`. -/
def wShortcutFile : DriveFile :=
  ⟨strBytes "shortcut-id-1", strBytes "photo.png",
   strBytes "application/vnd.google-apps.shortcut", none, none,
   some ⟨strBytes "target-id-9"⟩⟩

/-- The shortcut's target, itself carrying a further shortcut reference. -/
def wChainTarget : DriveFile :=
  ⟨strBytes "target-id-9", strBytes "real.png", strBytes "image/png", none, none,
   some ⟨strBytes "deeper-id-5"⟩⟩

/-- Provider where every call succeeds, the search finds the shortcut entry
first, and the metadata fetch resolves to `wChainTarget`. -/
def wProviderOk : Provider :=
  ⟨fun _ => 200, fun _ => ⟨[wShortcutFile, photoFile]⟩, fun _ => 200,
   fun _ => wChainTarget, fun _ => 200, fun _ => [80, 78, 71, 13]⟩

/-- Provider whose search succeeds with an empty result set. -/
def wProviderEmpty : Provider :=
  ⟨fun _ => 200, fun _ => ⟨[]⟩, fun _ => 200, fun _ => wChainTarget,
   fun _ => 200, fun _ => []⟩

/-! ## C4 -/

/-- C4: when the name+parent search returns 2xx with zero entries, the
handler answers 404 "File not found" (after the single search call), never a
server error. -/
theorem no_match_yields_404 (P : Provider) (api_key folder_id file_name : Bytes)
    (hs : is2xx (P.searchStatus (searchUrl file_name folder_id api_key)) = true)
    (hempty : (P.searchResult (searchUrl file_name folder_id api_key)).files = []) :
    serve_file_by_name P api_key folder_id file_name =
      (Except.ok (Response.error notFoundMsg 404),
       [Call.search (searchUrl file_name folder_id api_key)]) := by
  simp [serve_file_by_name, hs, hempty]

/-- C4 witness: the provider that reports no match at a concrete request. -/
theorem no_match_yields_404_witness :
    serve_file_by_name wProviderEmpty wKey wFolder (strBytes "photo.png") =
      (Except.ok (Response.error notFoundMsg 404),
       [Call.search (searchUrl (strBytes "photo.png") wFolder wKey)]) :=
  no_match_yields_404 wProviderEmpty wKey wFolder (strBytes "photo.png")
    (by decide) rfl

/-! ## C5 -/

/-- C5: a successful download is served with status 200, `Content-Type`
equal to the resolved metadata's `mimeType`, `Content-Disposition` equal to
`inline; filename="<name>"` with the name inserted verbatim, and the body
exactly the provider's bytes. -/
theorem download_served_verbatim (P : Provider) (api_key : Bytes)
    (file_info : DriveFile)
    (hd : is2xx (P.downloadStatus file_info.id) = true) :
    serve_file_by_id P api_key file_info =
      (Except.ok
        ⟨200, Body.bytes (P.downloadBytes file_info.id),
         [(strBytes "Content-Type", file_info.mime_type),
          (strBytes "Content-Disposition",
           strBytes "inline; filename=\x22" ++ file_info.name ++ strBytes "\x22")]⟩,
       [Call.download file_info.id]) := by
  simp [serve_file_by_id, hd]

/-- C5 witness: serving `photo.png` (`image/png`) yields
`Content-Type: image/png` and
`Content-Disposition: inline; filename="photo.png"`, per the spec example. -/
theorem download_served_verbatim_witness :
    serve_file_by_id wProviderOk wKey photoFile =
      (Except.ok
        ⟨200, Body.bytes [80, 78, 71, 13],
         [(strBytes "Content-Type", strBytes "image/png"),
          (strBytes "Content-Disposition",
           strBytes "inline; filename=\x22photo.png\x22")]⟩,
       [Call.download (strBytes "photo-id-7")]) := by
  have h := download_served_verbatim wProviderOk wKey photoFile (by decide)
  exact h.trans (by rfl)

end Drive

namespace Drive

/-! ## C1 -/

/-- C1: when the first search match carries a shortcut reference (and the
target metadata fetch succeeds), the handler issues exactly two further
provider lookups after the search — the metadata fetch of the shortcut's
`targetId`, then one content download — and the download uses the resolved
target's own id, not the shortcut entry's id. -/
theorem shortcut_two_further_lookups (P : Provider)
    (api_key folder_id file_name : Bytes)
    (f : DriveFile) (fs : List DriveFile) (sd : DriveShorcutDetails)
    (hs : is2xx (P.searchStatus (searchUrl file_name folder_id api_key)) = true)
    (hfiles : (P.searchResult (searchUrl file_name folder_id api_key)).files = f :: fs)
    (hsc : f.shortcut_details = some sd)
    (hm : is2xx (P.metaStatus sd.target_id) = true) :
    (serve_file_by_name P api_key folder_id file_name).2 =
      [Call.search (searchUrl file_name folder_id api_key),
       Call.getMetadata sd.target_id,
       Call.download (P.metaResult sd.target_id).id] := by
  by_cases hd : is2xx (P.downloadStatus (P.metaResult sd.target_id).id) = true <;>
    simp [serve_file_by_name, serve_file_by_id, hs, hfiles, hsc, hm, hd]

/-- C1 witness: the shortcut entry `shortcut-id-1` resolves via one metadata
fetch of `target-id-9` and one download of the target's id, and nothing else
follows the search. -/
theorem shortcut_two_further_lookups_witness :
    (serve_file_by_name wProviderOk wKey wFolder (strBytes "photo.png")).2 =
      [Call.search (searchUrl (strBytes "photo.png") wFolder wKey),
       Call.getMetadata (strBytes "target-id-9"),
       Call.download (strBytes "target-id-9")] := by
  have h := shortcut_two_further_lookups wProviderOk wKey wFolder
    (strBytes "photo.png") wShortcutFile [photoFile] ⟨strBytes "target-id-9"⟩
    (by decide) rfl rfl (by decide)
  exact h.trans (by rfl)

end Drive

namespace Drive

/-! ## C9 -/

/-- C9: shortcut resolution is single-level.  Even when the fetched target
itself carries a shortcut reference, no further metadata lookup happens: the
trace ends with one download of the target's own id, and on download success
the response headers use the target's own name and mimeType. -/
theorem shortcut_resolution_single_level (P : Provider)
    (api_key folder_id file_name : Bytes)
    (f : DriveFile) (fs : List DriveFile) (sd sd2 : DriveShorcutDetails)
    (hs : is2xx (P.searchStatus (searchUrl file_name folder_id api_key)) = true)
    (hfiles : (P.searchResult (searchUrl file_name folder_id api_key)).files = f :: fs)
    (hsc : f.shortcut_details = some sd)
    (hm : is2xx (P.metaStatus sd.target_id) = true)
    (hsc2 : (P.metaResult sd.target_id).shortcut_details = some sd2) :
    (serve_file_by_name P api_key folder_id file_name).2 =
      [Call.search (searchUrl file_name folder_id api_key),
       Call.getMetadata sd.target_id,
       Call.download (P.metaResult sd.target_id).id] ∧
    (is2xx (P.downloadStatus (P.metaResult sd.target_id).id) = true →
      (serve_file_by_name P api_key folder_id file_name).1 =
        Except.ok
          ⟨200, Body.bytes (P.downloadBytes (P.metaResult sd.target_id).id),
           [(strBytes "Content-Type", (P.metaResult sd.target_id).mime_type),
            (strBytes "Content-Disposition",
             strBytes "inline; filename=\x22" ++ (P.metaResult sd.target_id).name ++
               strBytes "\x22")]⟩) := by
  constructor
  · by_cases hd : is2xx (P.downloadStatus (P.metaResult sd.target_id).id) = true <;>
      simp [serve_file_by_name, serve_file_by_id, hs, hfiles, hsc, hm, hd]
  · intro hd
    simp [serve_file_by_name, serve_file_by_id, hs, hfiles, hsc, hm, hd]

end Drive

namespace Drive

/-- C9 witness: `shortcut-id-1` resolves to `wChainTarget`, which itself has
`shortcutDetails`, yet it is downloaded directly and its own name/mimeType
head the response. -/
theorem shortcut_resolution_single_level_witness :
    (serve_file_by_name wProviderOk wKey wFolder (strBytes "photo.png")).2 =
      [Call.search (searchUrl (strBytes "photo.png") wFolder wKey),
       Call.getMetadata (strBytes "target-id-9"),
       Call.download (strBytes "target-id-9")] ∧
    (serve_file_by_name wProviderOk wKey wFolder (strBytes "photo.png")).1 =
      Except.ok
        ⟨200, Body.bytes [80, 78, 71, 13],
         [(strBytes "Content-Type", strBytes "image/png"),
          (strBytes "Content-Disposition",
           strBytes "inline; filename=\x22real.png\x22")]⟩ := by
  have h := shortcut_resolution_single_level wProviderOk wKey wFolder
    (strBytes "photo.png") wShortcutFile [photoFile] ⟨strBytes "target-id-9"⟩
    ⟨strBytes "deeper-id-5"⟩ (by decide) rfl rfl (by decide) rfl
  exact ⟨h.1.trans (by rfl), (h.2 (by decide)).trans (by rfl)⟩

end Drive

namespace Drive

/-! ## C3 -/

/-- Provider exercising every failure site at once: the folder listing query
answers 503, the search for `bad.txt` answers 500, the search for `ok.txt`
succeeds with the shortcut entry first, the shortcut-target metadata fetch
answers 502, and every download answers 404. -/
def wProviderFail : Provider :=
  ⟨fun u =>
      if u = listUrl wFolder wKey then 503
      else if u = searchUrl (strBytes "bad.txt") wFolder wKey then 500
      else 200,
   fun _ => ⟨[wShortcutFile, photoFile]⟩,
   fun _ => 502, fun _ => wChainTarget, fun _ => 404, fun _ => []⟩

/-- C3: every provider call that returns a non-2xx status (of any value)
turns into a plain 500 response whose text body is specific to the call
site — "Failed to fetch files from Google Drive" for the listing query,
"Failed to search for file" for the name search, "Failed to fetch target
file of shortcut" for the shortcut-target metadata fetch, "Failed to
download file" for the content download — the four messages are pairwise
distinct, and the upstream status is never the response status (the
response is 500 whatever non-2xx status the provider returned). -/
theorem upstream_failure_500_distinct (P : Provider)
    (api_key folder_id name1 name2 : Bytes)
    (f : DriveFile) (fs : List DriveFile) (sd : DriveShorcutDetails)
    (g : DriveFile) :
    (is2xx (P.searchStatus (listUrl folder_id api_key)) = false →
      list_files P api_key folder_id =
        (Except.ok (Response.error listFailedMsg 500),
         [Call.search (listUrl folder_id api_key)])) ∧
    (is2xx (P.searchStatus (searchUrl name1 folder_id api_key)) = false →
      serve_file_by_name P api_key folder_id name1 =
        (Except.ok (Response.error searchFailedMsg 500),
         [Call.search (searchUrl name1 folder_id api_key)])) ∧
    (is2xx (P.searchStatus (searchUrl name2 folder_id api_key)) = true →
      (P.searchResult (searchUrl name2 folder_id api_key)).files = f :: fs →
      f.shortcut_details = some sd →
      is2xx (P.metaStatus sd.target_id) = false →
      serve_file_by_name P api_key folder_id name2 =
        (Except.ok (Response.error shortcutFailedMsg 500),
         [Call.search (searchUrl name2 folder_id api_key),
          Call.getMetadata sd.target_id])) ∧
    (is2xx (P.downloadStatus g.id) = false →
      serve_file_by_id P api_key g =
        (Except.ok (Response.error downloadFailedMsg 500), [Call.download g.id])) ∧
    (listFailedMsg ≠ searchFailedMsg ∧ listFailedMsg ≠ shortcutFailedMsg ∧
     listFailedMsg ≠ downloadFailedMsg ∧ searchFailedMsg ≠ shortcutFailedMsg ∧
     searchFailedMsg ≠ downloadFailedMsg ∧ shortcutFailedMsg ≠ downloadFailedMsg) := by
  refine ⟨fun h => ?_, fun h => ?_, fun h1 h2 h3 h4 => ?_, fun h => ?_, by decide⟩
  · simp [list_files, h]
  · simp [serve_file_by_name, h]
  · simp [serve_file_by_name, h1, h2, h3, h4]
  · simp [serve_file_by_id, h]

/-- C3 witness: `wProviderFail` exercises all four failing call sites — a 503
listing, a 500 search for `bad.txt`, a 502 shortcut-target fetch after a
successful search for `ok.txt`, and a 404 download — each answered by its own
500 message. -/
theorem upstream_failure_500_distinct_witness :
    list_files wProviderFail wKey wFolder =
      (Except.ok (Response.error listFailedMsg 500),
       [Call.search (listUrl wFolder wKey)]) ∧
    serve_file_by_name wProviderFail wKey wFolder (strBytes "bad.txt") =
      (Except.ok (Response.error searchFailedMsg 500),
       [Call.search (searchUrl (strBytes "bad.txt") wFolder wKey)]) ∧
    serve_file_by_name wProviderFail wKey wFolder (strBytes "ok.txt") =
      (Except.ok (Response.error shortcutFailedMsg 500),
       [Call.search (searchUrl (strBytes "ok.txt") wFolder wKey),
        Call.getMetadata (strBytes "target-id-9")]) ∧
    serve_file_by_id wProviderFail wKey photoFile =
      (Except.ok (Response.error downloadFailedMsg 500),
       [Call.download (strBytes "photo-id-7")]) ∧
    (listFailedMsg ≠ searchFailedMsg ∧ listFailedMsg ≠ shortcutFailedMsg ∧
     listFailedMsg ≠ downloadFailedMsg ∧ searchFailedMsg ≠ shortcutFailedMsg ∧
     searchFailedMsg ≠ downloadFailedMsg ∧ shortcutFailedMsg ≠ downloadFailedMsg) := by
  have h := upstream_failure_500_distinct wProviderFail wKey wFolder
    (strBytes "bad.txt") (strBytes "ok.txt") wShortcutFile [photoFile]
    ⟨strBytes "target-id-9"⟩ photoFile
  exact ⟨h.1 (by decide), h.2.1 (by decide),
    (h.2.2.1 (by decide) rfl rfl (by decide)).trans (by rfl),
    (h.2.2.2.1 (by decide)).trans (by rfl), h.2.2.2.2⟩

end Drive

namespace Drive

/-! ## C7 -/

/-- C7: when serving by name, only the first `DriveFile` of the search result
matters: with the search result truncated to its first element (everything
else about the provider unchanged), the handler's full behaviour — response
and call trace — is identical, and the ignored duplicates leave no mark. -/
theorem first_match_authoritative (P : Provider)
    (api_key folder_id file_name : Bytes)
    (f : DriveFile) (fs : List DriveFile)
    (hfiles : (P.searchResult (searchUrl file_name folder_id api_key)).files = f :: fs) :
    serve_file_by_name P api_key folder_id file_name =
      serve_file_by_name
        ⟨P.searchStatus,
         fun v => if v = searchUrl file_name folder_id api_key then ⟨[f]⟩
                  else P.searchResult v,
         P.metaStatus, P.metaResult, P.downloadStatus, P.downloadBytes⟩
        api_key folder_id file_name := by
  by_cases hs : is2xx (P.searchStatus (searchUrl file_name folder_id api_key)) = true
  · cases hsc : f.shortcut_details with
    | some sd =>
      by_cases hm : is2xx (P.metaStatus sd.target_id) = true <;>
        simp [serve_file_by_name, serve_file_by_id, hs, hfiles, hsc, hm]
    | none =>
      simp [serve_file_by_name, serve_file_by_id, hs, hfiles, hsc]
  · simp [serve_file_by_name, hs]

/-- C7 witness: with `wProviderOk`, whose search returns the shortcut entry
followed by a duplicate, truncating the result to the first entry leaves the
handler's output unchanged. -/
theorem first_match_authoritative_witness :
    serve_file_by_name wProviderOk wKey wFolder (strBytes "photo.png") =
      serve_file_by_name
        ⟨wProviderOk.searchStatus,
         fun v => if v = searchUrl (strBytes "photo.png") wFolder wKey
                  then ⟨[wShortcutFile]⟩ else wProviderOk.searchResult v,
         wProviderOk.metaStatus, wProviderOk.metaResult,
         wProviderOk.downloadStatus, wProviderOk.downloadBytes⟩
        wKey wFolder (strBytes "photo.png") :=
  first_match_authoritative wProviderOk wKey wFolder (strBytes "photo.png")
    wShortcutFile [photoFile] rfl

end Drive

namespace Drive

/-! ## C6 -/

/-- C6: the search query string embeds the decoded name through
`escapeQuote`, which alters nothing but single quotes: a quote-free name is
embedded verbatim, and each single-quote byte (39) becomes backslash-quote
(92, 39) with the surrounding bytes untouched, so a name such as
`O'Brien.txt` yields a well-formed quoted query term. -/
theorem single_quote_escaped_in_query (file_name folder_id api_key xs ys : Bytes) :
    searchUrl file_name folder_id api_key =
      strBytes "https://www.googleapis.com/drive/v3/files?q=name=\x27" ++
        escapeQuote file_name ++ strBytes "\x27+and+\x27" ++ folder_id ++
        strBytes "\x27+in+parents&supportsAllDrives=true&includeItemsFromAllDrives=true&fields=files(id,name,mimeType,shortcutDetails)&key=" ++
        api_key ∧
    (39 ∉ file_name → escapeQuote file_name = file_name) ∧
    escapeQuote (xs ++ 39 :: ys) = escapeQuote xs ++ 92 :: 39 :: escapeQuote ys := by
  refine ⟨rfl, fun hq => ?_, ?_⟩
  · induction file_name with
    | nil => rfl
    | cons b bs ih =>
      simp only [List.mem_cons, not_or] at hq
      have hb : ¬ b = 39 := fun h => hq.1 h.symm
      simp [escapeQuote, hb] at ih ⊢
      exact ih hq.2
  · simp [escapeQuote, List.flatMap_append]

/-- C6 witness: `O'Brien.txt` is embedded as `O\'Brien.txt`, and the
quote-free `photo.png` is embedded unchanged. -/
theorem single_quote_escaped_in_query_witness :
    searchUrl (strBytes "photo.png") wFolder wKey =
      strBytes "https://www.googleapis.com/drive/v3/files?q=name=\x27" ++
        escapeQuote (strBytes "photo.png") ++ strBytes "\x27+and+\x27" ++ wFolder ++
        strBytes "\x27+in+parents&supportsAllDrives=true&includeItemsFromAllDrives=true&fields=files(id,name,mimeType,shortcutDetails)&key=" ++
        wKey ∧
    escapeQuote (strBytes "photo.png") = strBytes "photo.png" ∧
    escapeQuote (strBytes "O" ++ 39 :: strBytes "Brien.txt") =
      strBytes "O" ++ 92 :: 39 :: strBytes "Brien.txt" := by
  have h := single_quote_escaped_in_query (strBytes "photo.png") wFolder wKey
    (strBytes "O") (strBytes "Brien.txt")
  refine ⟨h.1, h.2.1 (by decide), (h.2.2).trans ?_⟩
  rfl

end Drive

namespace Drive

/-! ## C2

The code maps a decode failure to `worker::Error::from("Invalid file name
encoding")` and propagates it with `?`: the handler returns `Err`, it does
not build any HTTP response itself (in particular no 4xx client-error
response); rendering that error is left to the hosting framework outside
this repository. -/

/-- C2 counterexample: for the path `/files/%FF` (whose remainder decodes to
the non-UTF-8 byte 255) the handler's result is the propagated error value,
not an `Ok` response of any status — so no client-error HTTP response is
returned by the handler. -/
theorem invalid_encoding_claim_counterexample :
    (fetch wProviderOk wKey wFolder (strBytes "/files/%FF")).1 =
      Except.error invalidEncodingMsg ∧
    (fetch wProviderOk wKey wFolder (strBytes "/files/%FF")).1.isOk = false :=
  ⟨rfl, rfl⟩

/-- C2 amended: whenever the remainder after `/files/` fails percent-decoding
to UTF-8, the handler short-circuits with the propagated error value
`Invalid file name encoding` — no HTTP response is built by this code and no
provider call is made. -/
theorem invalid_encoding_propagates_error (P : Provider)
    (api_key folder_id rem : Bytes) (hdec : urldecode rem = none) :
    fetch P api_key folder_id (strBytes "/files/" ++ rem) =
      (Except.error invalidEncodingMsg, []) := by
  have hrem : rem ≠ [] := by
    intro h
    subst h
    exact absurd hdec (by decide)
  have hne : strBytes "/files/" ++ rem ≠ strBytes "/files/" := by
    intro heq
    apply hrem
    have hl := congrArg List.length heq
    simp only [List.length_append] at hl
    exact List.eq_nil_of_length_eq_zero (by omega)
  have hpre : (strBytes "/files/").isPrefixOf (strBytes "/files/" ++ rem) = true := by
    rw [List.isPrefixOf_iff_prefix]
    exact List.prefix_append _ _
  have hdrop : (strBytes "/files/" ++ rem).drop 7 = rem := by
    have h7 : (strBytes "/files/").length = 7 := by decide
    rw [← h7, List.drop_left]
  simp only [fetch, hdrop]
  rw [if_neg hne, if_pos hpre, hdec]

/-- C2 amended witness: the concrete malformed remainder `%FF`. -/
theorem invalid_encoding_propagates_error_witness :
    fetch wProviderOk wKey wFolder (strBytes "/files/" ++ strBytes "%FF") =
      (Except.error invalidEncodingMsg, []) :=
  invalid_encoding_propagates_error wProviderOk wKey wFolder (strBytes "%FF")
    (by decide)

end Drive

namespace Drive

/-! ## C8 -/

/-- Hex digits below 16 round-trip through the encoder's digit table. -/
theorem from_to_hex_digit : ∀ d < 16, from_hex_digit (to_hex_digit d) = some d := by
  decide

/-- Percent-decoding inverts percent-encoding on byte sequences. -/
theorem decode_binary_urlencode (bs : Bytes) (hb : ∀ b ∈ bs, b < 256) :
    decode_binary (urlencode bs) = bs := by
  induction bs with
  | nil => rfl
  | cons b t ih =>
    have hbt : ∀ x ∈ t, x < 256 := fun x hx => hb x (List.mem_cons_of_mem _ hx)
    have hblt : b < 256 := hb b (List.mem_cons_self _ _)
    rw [urlencode, List.flatMap_cons]
    by_cases hsafe : isUrlSafe b = true
    · have hne : ¬ b = 37 := by
        intro h
        subst h
        exact absurd hsafe (by decide)
      rw [encodeByte, if_pos hsafe]
      show decode_binary (b :: urlencode t) = b :: t
      rw [decode_binary.eq_def]
      simp only [hne, if_false]
      rw [ih hbt]
    · have hd1 : from_hex_digit (to_hex_digit (b / 16)) = some (b / 16) :=
        from_to_hex_digit _ (by omega)
      have hd2 : from_hex_digit (to_hex_digit (b % 16)) = some (b % 16) :=
        from_to_hex_digit _ (by omega)
      have hb16 : 16 * (b / 16) + b % 16 = b := by omega
      rw [encodeByte, if_neg hsafe]
      show decode_binary (37 :: to_hex_digit (b / 16) :: to_hex_digit (b % 16) ::
        urlencode t) = b :: t
      rw [decode_binary.eq_def]
      simp [hd1, hd2, ih hbt, hb16]

/-- C8: the decode used at lookup inverts the encode used when rendering the
listing's links: for every (UTF-8-valid) name, percent-decoding its
percent-encoding succeeds and returns the name unchanged, so a listing link
looks up exactly the name that was rendered. -/
theorem link_roundtrip (name : Bytes) (hv : validUtf8 name = true)
    (hb : ∀ b ∈ name, b < 256) :
    urldecode (urlencode name) = some name := by
  simp only [urldecode]
  rw [decode_binary_urlencode name hb, if_pos hv]

/-- C8 witness: a name with a space, a quote and a non-ASCII character
round-trips through the link encoding. -/
theorem link_roundtrip_witness :
    validUtf8 (strBytes "caf\x27e\xcc\x81 1.png") = true ∧
    urldecode (urlencode (strBytes "caf\x27e\xcc\x81 1.png")) =
      some (strBytes "caf\x27e\xcc\x81 1.png") :=
  ⟨by decide, link_roundtrip _ (by decide) (by decide)⟩

end Drive

namespace Drive

/-! ## C10 -/

/-- An ASCII byte in front of a valid UTF-8 sequence peels off. -/
theorem validUtf8_ascii_cons (b : Nat) (l : Bytes) (hb : b < 128) :
    validUtf8 (b :: l) = validUtf8 l := by
  simp only [validUtf8]
  rw [validA.eq_def]
  simp [hb]

/-- An all-ASCII prefix of a valid UTF-8 sequence peels off. -/
theorem validUtf8_ascii_append (p : Bytes) (hp : ∀ b ∈ p, b < 128) (l : Bytes)
    (h : validUtf8 (p ++ l) = true) : validUtf8 l = true := by
  induction p with
  | nil => exact h
  | cons b t ih =>
    rw [List.cons_append,
      validUtf8_ascii_cons b (t ++ l) (hp b (List.mem_cons_self _ _))] at h
    exact ih (fun x hx => hp x (List.mem_cons_of_mem _ hx)) h

/-- The first byte of a valid UTF-8 sequence is never a continuation byte. -/
theorem validUtf8_head (b : Nat) (l : Bytes) (h : validUtf8 (b :: l) = true) :
    b < 128 ∨ 192 ≤ b := by
  by_cases h1 : b < 128
  · exact Or.inl h1
  right
  by_cases h2 : 194 ≤ b ∧ b ≤ 223
  · omega
  by_cases h3 : b = 224
  · omega
  by_cases h4 : (225 ≤ b ∧ b ≤ 236) ∨ b = 238 ∨ b = 239
  · omega
  by_cases h5 : b = 237
  · omega
  by_cases h6 : b = 240
  · omega
  by_cases h7 : 241 ≤ b ∧ b ≤ 243
  · omega
  by_cases h8 : b = 244
  · omega
  exfalso
  rw [validUtf8, validA.eq_def] at h
  simp only [if_neg h1, if_neg h2, if_neg h3, if_neg h4, if_neg h5, if_neg h6,
    if_neg h7, if_neg h8] at h
  exact Bool.false_ne_true h

/-- C10: for every valid UTF-8 request path that starts with the 7 ASCII
bytes of `/files/`, byte index 7 is a character boundary, so the router's
`&path[7..]` slice is well-defined and cannot panic. -/
theorem prefix_slice_boundary_safe (path : Bytes)
    (hv : validUtf8 path = true)
    (hp : (strBytes "/files/").isPrefixOf path = true) :
    is_char_boundary path 7 = true := by
  rw [List.isPrefixOf_iff_prefix] at hp
  obtain ⟨rest, rfl⟩ := hp
  have hrest : validUtf8 rest = true :=
    validUtf8_ascii_append (strBytes "/files/") (by decide) rest hv
  have hpre : strBytes "/files/" = [47, 102, 105, 108, 101, 115, 47] := by decide
  rw [hpre]
  rw [is_char_boundary]
  rw [if_neg (by omega : ¬ (7 : Nat) = 0)]
  have hdrop : List.drop 7 ([47, 102, 105, 108, 101, 115, 47] ++ rest) = rest := rfl
  rw [hdrop]
  cases rest with
  | nil => simp
  | cons c t =>
    exact decide_eq_true (validUtf8_head c t hrest)

/-- C10 witness: a concrete valid path with a multi-byte character after the
prefix. -/
theorem prefix_slice_boundary_safe_witness :
    is_char_boundary (strBytes "/files/caf\xc3\xa9.png") 7 = true :=
  prefix_slice_boundary_safe (strBytes "/files/caf\xc3\xa9.png")
    (by decide) (by decide)

end Drive
